import Mathlib

/-!
Shallow embedding of the website uptime monitor
(src/website_monitor.py and src/website_monitor_config.py).

The repository is a single-pass "check → diff → notify → persist" batch job.
Network and file effects are embedded by passing the outcome of each external
interaction as an explicit argument:

* the outcome of the one `requests.get` per target is a `RequestOutcome`
  (a response with a status code, a timeout, a `RequestException`, or any
  other exception);
* the outcome of each `requests.post` to the Telegram webhook is a
  `PostOutcome`, looked up from the message text by a `world` function;
* the persisted state file is an `Option StatusMap` (`none` = file absent),
  with `readOk`/`writeOk` booleans standing for whether the read/parse or the
  write raises, and JSON (de)serialisation of a string-to-bool object taken
  as faithful.

Python exceptions are embedded with `Except PyExc`: every function `f` of the
script also has a variant `fRun` that makes the try/except structure explicit
(handlers tried in source order, unhandled exceptions re-raised), so that
"never raises" is the statement `fRun args = Except.ok (f args)`.

`StatusMap` is an association list with Python-dict semantics (insertion
order, first-occurrence lookup, in-place update).
-/

namespace WebsiteMonitor

abbrev Url := String

/-- `StatusMap`: the persisted mapping URL → last-known-up boolean,
as a Python dict (association list in insertion order). -/
abbrev StatusMap := List (Url × Bool)

/-- `dict.get(k, dflt)` on a `StatusMap`. -/
def dictGet : StatusMap → Url → Bool → Bool
  | [], _, dflt => dflt
  | p :: d, k, dflt => if p.1 == k then p.2 else dictGet d k dflt

/-- `d[k] = v` on a `StatusMap`: update in place, else append. -/
def dictSet : StatusMap → Url → Bool → StatusMap
  | [], k, v => [(k, v)]
  | p :: d, k, v => if p.1 == k then (k, v) :: d else p :: dictSet d k v

/-- `k in d` on a `StatusMap`. -/
def hasKey : StatusMap → Url → Bool
  | [], _ => false
  | p :: d, k => p.1 == k || hasKey d k

/-- A Python exception, as raised by the networking and file I/O calls:
`requests.exceptions.Timeout`, a non-timeout
`requests.exceptions.RequestException` carrying its `str(e)` text, or any
other `Exception` carrying its `str(e)` text. -/
inductive PyExc where
  | timeout
  | requestException (msg : String)
  | otherException (msg : String)
deriving DecidableEq, Repr

/-- `str(e)` of an embedded exception. -/
def excStr : PyExc → String
  | .timeout => "timed out"
  | .requestException m => m
  | .otherException m => m

/-- Does `except Timeout` catch this exception? -/
def matchesTimeout : PyExc → Bool
  | .timeout => true
  | _ => false

/-- Does `except RequestException` catch this exception?
(`Timeout` is a subclass of `RequestException`.) -/
def matchesRequestException : PyExc → Bool
  | .timeout => true
  | .requestException _ => true
  | _ => false

/-- Does `except Exception` catch this exception? All embedded exceptions
are `Exception` subclasses. -/
def matchesException : PyExc → Bool := fun _ => true

/-- The outcome of the single `requests.get(url, ...)` a check performs. -/
inductive RequestOutcome where
  | response (code : Nat)
  | timeout
  | requestException (msg : String)
  | otherException (msg : String)
deriving DecidableEq, Repr

/-- `requests.get` either returns a response status code or raises. -/
def requestsGet : RequestOutcome → Except PyExc Nat
  | .response code => .ok code
  | .timeout => .error .timeout
  | .requestException m => .error (.requestException m)
  | .otherException m => .error (.otherException m)

/-- A request outcome on which `requests.get` raises (no response received). -/
def isFailure : RequestOutcome → Bool
  | .response _ => false
  | _ => true

/-- The `(is_up, error_msg, status_code)` triple returned by `check_website`. -/
structure CheckResult where
  is_up : Bool
  detail : String
  status_code : Option Nat
deriving DecidableEq, Repr

/-- `"ConnectionError" in error_msg`: substring test on the character list. -/
def strContains (hay needle : String) : Bool :=
  decide (List.IsInfix needle.data hay.data)

/-- Classification of a received response by its status code
(`if status_code == 200` branch of `check_website`). -/
def classifyStatus (code : Nat) : CheckResult :=
  if code == 200 then ⟨true, "OK", some code⟩
  else ⟨false, "HTTP " ++ toString code, some code⟩

/-- The `except Timeout` handler body. -/
def onTimeout (timeout_seconds : Nat) : CheckResult :=
  ⟨false, "Timeout after " ++ toString timeout_seconds ++ "s", none⟩

/-- The `except RequestException as e` handler body. -/
def onRequestExc (error_msg : String) : CheckResult :=
  if strContains error_msg "ConnectionError" then ⟨false, "Connection failed", none⟩
  else if strContains error_msg "SSLError" then ⟨false, "SSL error", none⟩
  else ⟨false, "Error: " ++ error_msg.take 100, none⟩

/-- The `except Exception as e` handler body. -/
def onOtherExc (error_msg : String) : CheckResult :=
  ⟨false, "Unexpected error: " ++ error_msg.take 100, none⟩

/-- `check_website(url)`, as a function of the configured timeout and of the
outcome of the one GET it performs. -/
def check_website (timeout_seconds : Nat) (net : RequestOutcome) : CheckResult :=
  match requestsGet net with
  | .ok code => classifyStatus code
  | .error .timeout => onTimeout timeout_seconds
  | .error (.requestException m) => onRequestExc m
  | .error (.otherException m) => onOtherExc m

/-- `check_website` with its try/except structure explicit: the handlers are
tried in source order (`Timeout`, then `RequestException`, then `Exception`)
and an exception no handler matches is re-raised. -/
def check_websiteRun (timeout_seconds : Nat) (net : RequestOutcome) :
    Except PyExc CheckResult :=
  match requestsGet net with
  | .ok code => .ok (classifyStatus code)
  | .error e =>
    if matchesTimeout e then .ok (onTimeout timeout_seconds)
    else if matchesRequestException e then .ok (onRequestExc (excStr e))
    else if matchesException e then .ok (onOtherExc (excStr e))
    else .error e

/-- The outcome of the one `requests.post` to the Telegram webhook:
a response with a status code, or an exception. -/
inductive PostOutcome where
  | response (code : Nat)
  | exc (msg : String)
deriving DecidableEq, Repr

/-- `requests.post` either returns a response status code or raises. -/
def requestsPost : PostOutcome → Except PyExc Nat
  | .response code => .ok code
  | .exc m => .error (.otherException m)

/-- The level of the one log line `send_telegram_message` emits. -/
inductive LogLevel where
  | info
  | error
deriving DecidableEq, Repr

/-- `send_telegram_message(message)`, as a function of the webhook call's
outcome: `True` on a 200 response, `False` otherwise. -/
def send_telegram_message (post : PostOutcome) : Bool :=
  match post with
  | .response code => code == 200
  | .exc _ => false

/-- `send_telegram_message` with its try/except structure explicit:
`except Exception` catches any raise from the POST; an uncaught exception
would be re-raised. -/
def send_telegram_messageRun (post : PostOutcome) : Except PyExc Bool :=
  match requestsPost post with
  | .ok code => .ok (code == 200)
  | .error e => if matchesException e then .ok false else .error e

/-- The level of the log line `send_telegram_message` writes: `logger.info`
on the 200 path, `logger.error` on the non-200 and exception paths. -/
def send_telegram_log (post : PostOutcome) : LogLevel :=
  match post with
  | .response code => if code == 200 then .info else .error
  | .exc _ => .error

/-- Render an `Optional[int]` the way a Python f-string does. -/
def statusCodeStr : Option Nat → String
  | some code => toString code
  | none => "None"

/-- `format_status_message(url, is_up, error_msg, status_code)`; `now` is the
`datetime.now()` timestamp string. -/
def format_status_message (now : String) (url : Url) (is_up : Bool)
    (error_msg : String) (status_code : Option Nat) : String :=
  let emoji := if is_up then "✅" else "🔴"
  let status := if is_up then "UP" else "DOWN"
  let details :=
    if is_up then "Status code: " ++ statusCodeStr status_code
    else "Error: " ++ error_msg
  emoji ++ " <b>" ++ url ++ "</b>\n" ++
    "Status: <b>" ++ status ++ "</b>\n" ++
    details ++ "\n" ++
    "Time: " ++ now

/-- `format_summary_message(current_state)` (config variant only). -/
def format_summary_message (now : String) (current_state : StatusMap) : String :=
  let up_sites := (current_state.filter (fun p => p.2)).map (fun p => p.1)
  let down_sites := (current_state.filter (fun p => !p.2)).map (fun p => p.1)
  "📊 <b>Current Status Summary</b>\n\n" ++
    (if up_sites.isEmpty then ""
     else "✅ <b>UP:</b>\n" ++
       String.join (up_sites.map (fun s => "  • " ++ s ++ "\n")) ++ "\n") ++
    (if down_sites.isEmpty then ""
     else "🔴 <b>DOWN:</b>\n" ++
       String.join (down_sites.map (fun s => "  • " ++ s ++ "\n")) ++ "\n") ++
    "Time: " ++ now

/-- The `open`/`json.load` part of `load_state`: absent file is checked with
`os.path.exists` before the try block; `readOk = false` means the read or
parse raises. -/
def readFile (file : Option StatusMap) (readOk : Bool) : Except PyExc StatusMap :=
  match file with
  | none => .ok []
  | some m => if readOk then .ok m else .error (.otherException "parse error")

/-- `load_state()`: the persisted map if the file exists and parses,
otherwise the empty map. -/
def load_state (file : Option StatusMap) (readOk : Bool) : StatusMap :=
  match file with
  | none => []
  | some m => if readOk then m else []

/-- `load_state` with its try/except structure explicit: a raise from the
read/parse is caught by `except Exception`, logged, and `{}` returned. -/
def load_stateRun (file : Option StatusMap) (readOk : Bool) :
    Except PyExc StatusMap :=
  match file with
  | none => .ok []
  | some m =>
    match readFile (some m) readOk with
    | .ok st => .ok st
    | .error e => if matchesException e then .ok [] else .error e

/-- The `open`/`json.dump` part of `save_state`: on success the file now
holds exactly the written map; `writeOk = false` means the write raises. -/
def writeFile (state : StatusMap) (writeOk : Bool) :
    Except PyExc (Option StatusMap) :=
  if writeOk then .ok (some state) else .error (.otherException "write error")

/-- `save_state(state)`: the resulting file content (unchanged on failure). -/
def save_state (file : Option StatusMap) (state : StatusMap) (writeOk : Bool) :
    Option StatusMap :=
  if writeOk then some state else file

/-- `save_state` with its try/except structure explicit: a raise from the
write is caught by `except Exception` and logged. -/
def save_stateRun (file : Option StatusMap) (state : StatusMap) (writeOk : Bool) :
    Except PyExc (Option StatusMap) :=
  match writeFile state writeOk with
  | .ok f => .ok f
  | .error e => if matchesException e then .ok file else .error e

/-- A change record appended to `status_changed`:
the `(website, is_up, error_msg, status_code)` tuple. -/
structure ChangeRecord where
  url : Url
  is_up : Bool
  detail : String
  status_code : Option Nat
deriving DecidableEq, Repr

/-- An externally visible effect of a run: a Telegram send (with the message
and the boolean `send_telegram_message` returned), the `time.sleep(1)`
between sends, or the invocation of `save_state` with the map it is given. -/
inductive Event where
  | sent (message : String) (ok : Bool)
  | slept
  | saved (state : StatusMap)
deriving DecidableEq, Repr

/-- The `for website in WEBSITES` loop of `main`: builds `current_state` and
`status_changed`, comparing each check to `previous_state.get(website, True)`. -/
def runChecks (timeout_seconds : Nat) (net : Url → RequestOutcome)
    (previous_state : StatusMap) :
    List Url → StatusMap → List ChangeRecord → StatusMap × List ChangeRecord
  | [], current_state, status_changed => (current_state, status_changed)
  | website :: rest, current_state, status_changed =>
    let r := check_website timeout_seconds (net website)
    let was_up := dictGet previous_state website true
    runChecks timeout_seconds net previous_state rest
      (dictSet current_state website r.is_up)
      (if r.is_up != was_up then
        status_changed ++ [⟨website, r.is_up, r.detail, r.status_code⟩]
       else status_changed)

/-- The check loop with exceptions explicit (via `check_websiteRun`). -/
def runChecksE (timeout_seconds : Nat) (net : Url → RequestOutcome)
    (previous_state : StatusMap) :
    List Url → StatusMap → List ChangeRecord →
    Except PyExc (StatusMap × List ChangeRecord)
  | [], current_state, status_changed => .ok (current_state, status_changed)
  | website :: rest, current_state, status_changed =>
    match check_websiteRun timeout_seconds (net website) with
    | .error e => .error e
    | .ok r =>
      runChecksE timeout_seconds net previous_state rest
        (dictSet current_state website r.is_up)
        (if r.is_up != dictGet previous_state website true then
          status_changed ++ [⟨website, r.is_up, r.detail, r.status_code⟩]
         else status_changed)

/-- The `for ... in status_changed` notification loop: one send and one
sleep per queued change record, in queue order; `world` gives the webhook
outcome for each message. -/
def notifyLoop (world : String → PostOutcome) (now : String) :
    List ChangeRecord → List Event
  | [] => []
  | r :: rs =>
    let msg := format_status_message now r.url r.is_up r.detail r.status_code
    Event.sent msg (send_telegram_message (world msg)) :: Event.slept ::
      notifyLoop world now rs

/-- The notification loop with exceptions explicit. -/
def notifyLoopE (world : String → PostOutcome) (now : String) :
    List ChangeRecord → Except PyExc (List Event)
  | [] => .ok []
  | r :: rs =>
    let msg := format_status_message now r.url r.is_up r.detail r.status_code
    match send_telegram_messageRun (world msg) with
    | .error e => .error e
    | .ok ok =>
      match notifyLoopE world now rs with
      | .error e => .error e
      | .ok evs => .ok (Event.sent msg ok :: Event.slept :: evs)

/-- What one invocation of `main` leaves behind: the state file's content
after the final save, the ordered effect trace, and the in-memory
`status_changed` and `current_state` it built. -/
structure RunResult where
  file : Option StatusMap
  events : List Event
  changed : List ChangeRecord
  current : StatusMap
deriving DecidableEq, Repr

/-- `main()`. `variantSummary = false` is `website_monitor.py`;
`variantSummary = true` is `website_monitor_config.py`, which additionally
sends one summary message when at least one change occurred. -/
def mainRun (variantSummary : Bool) (timeout_seconds : Nat)
    (websites : List Url) (net : Url → RequestOutcome)
    (world : String → PostOutcome) (now : String)
    (file : Option StatusMap) (readOk writeOk : Bool) : RunResult :=
  let previous_state := load_state file readOk
  let checked := runChecks timeout_seconds net previous_state websites [] []
  let current_state := checked.1
  let status_changed := checked.2
  let notifyEvents :=
    if status_changed.isEmpty then []
    else
      notifyLoop world now status_changed ++
        (if variantSummary then
          [Event.sent (format_summary_message now current_state)
            (send_telegram_message (world (format_summary_message now current_state)))]
         else [])
  { file := save_state file current_state writeOk
    events := notifyEvents ++ [Event.saved current_state]
    changed := status_changed
    current := current_state }

/-- `main()` with exceptions explicit: every stage runs through its `Run`
variant, and any uncaught exception aborts the run as `Except.error`. -/
def mainRunE (variantSummary : Bool) (timeout_seconds : Nat)
    (websites : List Url) (net : Url → RequestOutcome)
    (world : String → PostOutcome) (now : String)
    (file : Option StatusMap) (readOk writeOk : Bool) :
    Except PyExc RunResult :=
  match load_stateRun file readOk with
  | .error e => .error e
  | .ok previous_state =>
    match runChecksE timeout_seconds net previous_state websites [] [] with
    | .error e => .error e
    | .ok (current_state, status_changed) =>
      match
        (if status_changed.isEmpty then Except.ok []
         else
           match notifyLoopE world now status_changed with
           | .error e => .error e
           | .ok evs =>
             if variantSummary then
               match send_telegram_messageRun
                   (world (format_summary_message now current_state)) with
               | .error e => .error e
               | .ok ok =>
                 .ok (evs ++
                   [Event.sent (format_summary_message now current_state) ok])
             else .ok evs) with
      | .error e => .error e
      | .ok notifyEvents =>
        match save_stateRun file current_state writeOk with
        | .error e => .error e
        | .ok f =>
          .ok { file := f
                events := notifyEvents ++ [Event.saved current_state]
                changed := status_changed
                current := current_state }

/-- The messages submitted to the notification sink, in order, read off an
effect trace. -/
def sentMessages (events : List Event) : List String :=
  events.filterMap (fun e =>
    match e with
    | .sent m _ => some m
    | _ => none)

/-- The message a change record is formatted into. -/
def recordMessage (now : String) (r : ChangeRecord) : String :=
  format_status_message now r.url r.is_up r.detail r.status_code

/-- Whether the check loop appends a change record for `website`. -/
def changeCond (timeout_seconds : Nat) (net : Url → RequestOutcome)
    (previous_state : StatusMap) (website : Url) : Bool :=
  (check_website timeout_seconds (net website)).is_up !=
    dictGet previous_state website true

/-- The change record the check loop appends for `website`. -/
def changeRec (timeout_seconds : Nat) (net : Url → RequestOutcome)
    (website : Url) : ChangeRecord :=
  let r := check_website timeout_seconds (net website)
  ⟨website, r.is_up, r.detail, r.status_code⟩

/-- The change records a run of the check loop enqueues, in target order. -/
def changesOf (timeout_seconds : Nat) (net : Url → RequestOutcome)
    (previous_state : StatusMap) : List Url → List ChangeRecord
  | [] => []
  | website :: rest =>
    (if changeCond timeout_seconds net previous_state website then
      [changeRec timeout_seconds net website]
     else []) ++ changesOf timeout_seconds net previous_state rest

/-! ### Dictionary lemmas -/

lemma dictGet_dictSet_same (d : StatusMap) (k : Url) (v dflt : Bool) :
    dictGet (dictSet d k v) k dflt = v := by
  induction d with
  | nil => simp [dictGet, dictSet]
  | cons p d ih =>
    by_cases h : p.1 = k
    · simp [dictGet, dictSet, h]
    · simp only [dictSet, beq_iff_eq, h, if_false]
      simp [dictGet, h, ih]

lemma dictGet_dictSet_ne (d : StatusMap) (k k' : Url) (v dflt : Bool)
    (h : k ≠ k') : dictGet (dictSet d k v) k' dflt = dictGet d k' dflt := by
  induction d with
  | nil => simp [dictGet, dictSet, h]
  | cons p d ih =>
    by_cases hp : p.1 = k
    · simp [dictGet, dictSet, hp, h]
    · simp only [dictSet, beq_iff_eq, hp, if_false]
      by_cases hp' : p.1 = k'
      · simp [dictGet, hp']
      · simp [dictGet, hp', ih]

lemma hasKey_dictSet (d : StatusMap) (k k' : Url) (v : Bool) :
    hasKey (dictSet d k v) k' = ((k == k') || hasKey d k') := by
  induction d with
  | nil => simp [hasKey, dictSet]
  | cons p d ih =>
    by_cases hp : p.1 = k
    · simp [hasKey, dictSet, hp]
    · simp only [dictSet, beq_iff_eq, hp, if_false]
      simp only [hasKey, ih]
      cases hpk : (p.1 == k') <;> cases hkk : (k == k') <;> simp

/-! ### Exception-elimination lemmas: each `Run` variant returns normally -/

lemma check_websiteRun_eq (timeout_seconds : Nat) (net : RequestOutcome) :
    check_websiteRun timeout_seconds net =
      Except.ok (check_website timeout_seconds net) := by
  cases net <;> rfl

lemma send_telegram_messageRun_eq (post : PostOutcome) :
    send_telegram_messageRun post = Except.ok (send_telegram_message post) := by
  cases post <;> rfl

lemma load_stateRun_eq (file : Option StatusMap) (readOk : Bool) :
    load_stateRun file readOk = Except.ok (load_state file readOk) := by
  cases file <;> cases readOk <;> rfl

lemma save_stateRun_eq (file : Option StatusMap) (state : StatusMap)
    (writeOk : Bool) :
    save_stateRun file state writeOk =
      Except.ok (save_state file state writeOk) := by
  cases writeOk <;> rfl

lemma runChecksE_eq (timeout_seconds : Nat) (net : Url → RequestOutcome)
    (previous_state : StatusMap) (websites : List Url) (cur : StatusMap)
    (ch : List ChangeRecord) :
    runChecksE timeout_seconds net previous_state websites cur ch =
      Except.ok (runChecks timeout_seconds net previous_state websites cur ch) := by
  induction websites generalizing cur ch with
  | nil => rfl
  | cons w ws ih =>
    simp only [runChecksE, runChecks, check_websiteRun_eq]
    exact ih _ _

lemma notifyLoopE_eq (world : String → PostOutcome) (now : String)
    (rs : List ChangeRecord) :
    notifyLoopE world now rs = Except.ok (notifyLoop world now rs) := by
  induction rs with
  | nil => rfl
  | cons r rs ih =>
    simp only [notifyLoopE, notifyLoop, send_telegram_messageRun_eq, ih]

lemma mainRunE_eq (variantSummary : Bool) (timeout_seconds : Nat)
    (websites : List Url) (net : Url → RequestOutcome)
    (world : String → PostOutcome) (now : String)
    (file : Option StatusMap) (readOk writeOk : Bool) :
    mainRunE variantSummary timeout_seconds websites net world now file
        readOk writeOk =
      Except.ok (mainRun variantSummary timeout_seconds websites net world now
        file readOk writeOk) := by
  simp only [mainRunE, mainRun, load_stateRun_eq, runChecksE_eq,
    notifyLoopE_eq, send_telegram_messageRun_eq, save_stateRun_eq]
  cases h : (runChecks timeout_seconds net (load_state file readOk)
      websites [] []).2.isEmpty <;>
    cases variantSummary <;> simp [h]

/-! ### Check-loop characterization -/

lemma runChecks_snd (timeout_seconds : Nat) (net : Url → RequestOutcome)
    (previous_state : StatusMap) (websites : List Url) (cur : StatusMap)
    (ch : List ChangeRecord) :
    (runChecks timeout_seconds net previous_state websites cur ch).2 =
      ch ++ changesOf timeout_seconds net previous_state websites := by
  induction websites generalizing cur ch with
  | nil => simp [runChecks, changesOf]
  | cons w ws ih =>
    simp only [runChecks, changesOf, changeCond, changeRec, ih]
    cases h : ((check_website timeout_seconds (net w)).is_up !=
        dictGet previous_state w true) <;> simp [h]

lemma runChecks_fst_get_not_mem (timeout_seconds : Nat)
    (net : Url → RequestOutcome) (previous_state : StatusMap)
    (websites : List Url) (cur : StatusMap) (ch : List ChangeRecord)
    (w : Url) (dflt : Bool) (hw : w ∉ websites) :
    dictGet (runChecks timeout_seconds net previous_state websites cur ch).1
        w dflt = dictGet cur w dflt := by
  induction websites generalizing cur ch with
  | nil => rfl
  | cons u ws ih =>
    simp only [List.mem_cons, not_or] at hw
    simp only [runChecks]
    rw [ih _ _ hw.2, dictGet_dictSet_ne _ _ _ _ _ (fun h => hw.1 h.symm)]

lemma runChecks_fst_get (timeout_seconds : Nat) (net : Url → RequestOutcome)
    (previous_state : StatusMap) (websites : List Url) (cur : StatusMap)
    (ch : List ChangeRecord) (w : Url) (dflt : Bool) (hw : w ∈ websites) :
    dictGet (runChecks timeout_seconds net previous_state websites cur ch).1
        w dflt = (check_website timeout_seconds (net w)).is_up := by
  induction websites generalizing cur ch with
  | nil => cases hw
  | cons u ws ih =>
    simp only [runChecks]
    by_cases hmem : w ∈ ws
    · exact ih _ _ hmem
    · have hu : w = u := by
        rcases List.mem_cons.mp hw with h | h
        · exact h
        · exact absurd h hmem
      subst hu
      rw [runChecks_fst_get_not_mem _ _ _ _ _ _ _ _ hmem,
        dictGet_dictSet_same]

lemma runChecks_fst_hasKey (timeout_seconds : Nat)
    (net : Url → RequestOutcome) (previous_state : StatusMap)
    (websites : List Url) (cur : StatusMap) (ch : List ChangeRecord)
    (w : Url) :
    hasKey (runChecks timeout_seconds net previous_state websites cur ch).1 w =
      (decide (w ∈ websites) || hasKey cur w) := by
  induction websites generalizing cur ch with
  | nil => simp [runChecks]
  | cons u ws ih =>
    simp only [runChecks, ih, hasKey_dictSet, List.mem_cons]
    by_cases hu : w = u
    · subst hu; simp
    · have hne : ¬ u = w := fun h => hu h.symm
      have hb : (u == w) = false := beq_eq_false_iff_ne.mpr hne
      simp [hu, hb]

/-- The built `current_state` depends only on the per-target up/down bits,
never on the previous state, the notification world, or the accumulators. -/
lemma runChecks_fst_congr (t1 t2 : Nat) (net1 net2 : Url → RequestOutcome)
    (prev1 prev2 : StatusMap) (websites : List Url) (cur : StatusMap)
    (ch1 ch2 : List ChangeRecord)
    (h : ∀ w ∈ websites,
      (check_website t1 (net1 w)).is_up = (check_website t2 (net2 w)).is_up) :
    (runChecks t1 net1 prev1 websites cur ch1).1 =
      (runChecks t2 net2 prev2 websites cur ch2).1 := by
  induction websites generalizing cur ch1 ch2 with
  | nil => rfl
  | cons u ws ih =>
    simp only [runChecks]
    rw [h u (List.mem_cons_self u ws)]
    exact ih _ _ _ (fun w hw => h w (List.mem_cons_of_mem u hw))

/-! ### changesOf lemmas -/

lemma changesOf_eq_nil (timeout_seconds : Nat) (net : Url → RequestOutcome)
    (previous_state : StatusMap) (websites : List Url)
    (h : ∀ w ∈ websites,
      changeCond timeout_seconds net previous_state w = false) :
    changesOf timeout_seconds net previous_state websites = [] := by
  induction websites with
  | nil => rfl
  | cons u ws ih =>
    simp only [changesOf, h u (List.mem_cons_self u ws), if_false,
      List.nil_append]
    exact ih (fun w hw => h w (List.mem_cons_of_mem u hw))

lemma changesOf_filter_not_mem (timeout_seconds : Nat)
    (net : Url → RequestOutcome) (previous_state : StatusMap)
    (websites : List Url) (url : Url) (h : url ∉ websites) :
    (changesOf timeout_seconds net previous_state websites).filter
        (fun r => r.url == url) = [] := by
  induction websites with
  | nil => rfl
  | cons u ws ih =>
    simp only [List.mem_cons, not_or] at h
    simp only [changesOf, List.filter_append]
    rw [ih h.2, List.append_nil]
    have hne : ¬ u = url := fun hh => h.1 hh.symm
    cases hc : changeCond timeout_seconds net previous_state u <;>
      simp [changeRec, hc, hne]

lemma changesOf_filter_eq (timeout_seconds : Nat)
    (net : Url → RequestOutcome) (previous_state : StatusMap)
    (websites : List Url) (url : Url) (hnd : websites.Nodup)
    (hmem : url ∈ websites)
    (hc : changeCond timeout_seconds net previous_state url = true) :
    (changesOf timeout_seconds net previous_state websites).filter
        (fun r => r.url == url) =
      [changeRec timeout_seconds net url] := by
  induction websites with
  | nil => cases hmem
  | cons u ws ih =>
    rcases List.nodup_cons.mp hnd with ⟨hu, hnd'⟩
    simp only [changesOf, List.filter_append]
    by_cases huu : u = url
    · subst huu
      rw [changesOf_filter_not_mem _ _ _ _ _ hu, List.append_nil]
      simp [hc, changeRec]
    · have hmem' : url ∈ ws := by
        rcases List.mem_cons.mp hmem with h | h
        · exact absurd h.symm huu
        · exact h
      rw [ih hnd' hmem']
      cases hcu : changeCond timeout_seconds net previous_state u <;>
        simp [changeRec, hcu, huu]

/-! ### Substring containment -/

/-- `strContains` embeds Python's `tok in s`: it holds exactly when the
needle occurs contiguously inside the haystack. -/
lemma strContains_iff (hay needle : String) :
    strContains hay needle = true ↔ ∃ pre post, hay = pre ++ needle ++ post := by
  simp only [strContains, decide_eq_true_eq]
  constructor
  · rintro ⟨s, t, h⟩
    refine ⟨⟨s⟩, ⟨t⟩, ?_⟩
    apply String.ext
    simp only [String.data_append]
    exact h.symm
  · rintro ⟨pre, post, h⟩
    refine ⟨pre.data, post.data, ?_⟩
    rw [h]
    simp [String.data_append]

/-! ### Effect-trace lemmas -/

lemma sentMessages_append (a b : List Event) :
    sentMessages (a ++ b) = sentMessages a ++ sentMessages b := by
  simp [sentMessages, List.filterMap_append]

lemma sentMessages_notifyLoop (world : String → PostOutcome) (now : String)
    (rs : List ChangeRecord) :
    sentMessages (notifyLoop world now rs) = rs.map (recordMessage now) := by
  induction rs with
  | nil => rfl
  | cons r rs ih =>
    simp only [notifyLoop, sentMessages, List.filterMap_cons] at ih ⊢
    simp [ih, recordMessage]

lemma sentMessages_nil : sentMessages [] = [] := rfl

lemma sentMessages_sent_cons (m : String) (ok : Bool) (evs : List Event) :
    sentMessages (Event.sent m ok :: evs) = m :: sentMessages evs := rfl

lemma sentMessages_saved_cons (st : StatusMap) (evs : List Event) :
    sentMessages (Event.saved st :: evs) = sentMessages evs := rfl

lemma mainRun_changed (variantSummary : Bool) (timeout_seconds : Nat)
    (websites : List Url) (net : Url → RequestOutcome)
    (world : String → PostOutcome) (now : String)
    (file : Option StatusMap) (readOk writeOk : Bool) :
    (mainRun variantSummary timeout_seconds websites net world now file
        readOk writeOk).changed =
      changesOf timeout_seconds net (load_state file readOk) websites := by
  simp [mainRun, runChecks_snd]

lemma mainRun_current (variantSummary : Bool) (timeout_seconds : Nat)
    (websites : List Url) (net : Url → RequestOutcome)
    (world : String → PostOutcome) (now : String)
    (file : Option StatusMap) (readOk writeOk : Bool) :
    (mainRun variantSummary timeout_seconds websites net world now file
        readOk writeOk).current =
      (runChecks timeout_seconds net (load_state file readOk)
        websites [] []).1 := rfl

lemma mainRun_file (variantSummary : Bool) (timeout_seconds : Nat)
    (websites : List Url) (net : Url → RequestOutcome)
    (world : String → PostOutcome) (now : String)
    (file : Option StatusMap) (readOk writeOk : Bool) :
    (mainRun variantSummary timeout_seconds websites net world now file
        readOk writeOk).file =
      save_state file
        (mainRun variantSummary timeout_seconds websites net world now file
          readOk writeOk).current writeOk := rfl

lemma mainRun_sent (variantSummary : Bool) (timeout_seconds : Nat)
    (websites : List Url) (net : Url → RequestOutcome)
    (world : String → PostOutcome) (now : String)
    (file : Option StatusMap) (readOk writeOk : Bool) :
    sentMessages (mainRun variantSummary timeout_seconds websites net world
        now file readOk writeOk).events =
      (mainRun variantSummary timeout_seconds websites net world now file
          readOk writeOk).changed.map (recordMessage now) ++
        (if variantSummary &&
            !(mainRun variantSummary timeout_seconds websites net world now
                file readOk writeOk).changed.isEmpty then
          [format_summary_message now
            (mainRun variantSummary timeout_seconds websites net world now
              file readOk writeOk).current]
         else []) := by
  simp only [mainRun]
  cases h : (runChecks timeout_seconds net (load_state file readOk)
      websites [] []).2.isEmpty
  · cases variantSummary <;>
      simp [h, sentMessages_append, sentMessages_notifyLoop,
        sentMessages_sent_cons, sentMessages_saved_cons, sentMessages_nil]
  · have hnil : (runChecks timeout_seconds net (load_state file readOk)
        websites [] []).2 = [] := List.isEmpty_iff.mp h
    simp [h, hnil, sentMessages_saved_cons, sentMessages_nil]

lemma mainRun_events_last (variantSummary : Bool) (timeout_seconds : Nat)
    (websites : List Url) (net : Url → RequestOutcome)
    (world : String → PostOutcome) (now : String)
    (file : Option StatusMap) (readOk writeOk : Bool) :
    (mainRun variantSummary timeout_seconds websites net world now file
        readOk writeOk).events.getLast? =
      some (Event.saved
        (mainRun variantSummary timeout_seconds websites net world now file
          readOk writeOk).current) := by
  simp [mainRun, List.getLast?_concat]

/-- Helper: a key absent from a `StatusMap` looks up to the default. -/
lemma dictGet_of_not_hasKey (d : StatusMap) (k : Url) (dflt : Bool)
    (h : hasKey d k = false) : dictGet d k dflt = dflt := by
  induction d with
  | nil => rfl
  | cons p d ih =>
    simp only [hasKey, Bool.or_eq_false_iff] at h
    simp [dictGet, h.1, ih h.2]

/-! ### Claims -/

/-- Claim C3: if an HTTP response is received, the Checker classifies it
solely by status code: code 200 yields `(is_up = true, detail = "OK",
status_code = 200)` and nothing else; any other code `c` yields
`(is_up = false, detail = "HTTP c", status_code = c)`. -/
theorem claim_C3_response_classification (timeout_seconds c : Nat) :
    check_website timeout_seconds (RequestOutcome.response 200) =
      ⟨true, "OK", some 200⟩ ∧
    (c ≠ 200 →
      check_website timeout_seconds (RequestOutcome.response c) =
        ⟨false, "HTTP " ++ toString c, some c⟩) := by
  refine ⟨rfl, fun hc => ?_⟩
  simp [check_website, requestsGet, classifyStatus, hc]

/-- Witness for C3 at the spec's own scenario: a 500 response. -/
theorem claim_C3_witness :
    check_website 30 (RequestOutcome.response 200) = ⟨true, "OK", some 200⟩ ∧
    check_website 30 (RequestOutcome.response 500) =
      ⟨false, "HTTP " ++ toString 500, some 500⟩ :=
  ⟨(claim_C3_response_classification 30 500).1,
   (claim_C3_response_classification 30 500).2 (by decide)⟩

/-- Claim C4: a request that fails before a response yields `is_up = false`
with no status code, and the detail is chosen by the first matching rule:
timeout gives "Timeout after Ns" with N the configured timeout; a transport
failure gives "Connection failed" if the error text contains
"ConnectionError", else "SSL error" if it contains "SSLError", else "Error: "
plus the first 100 characters; any other exception gives "Unexpected error: "
plus the first 100 characters. The final two parts pin "contains" down as
contiguous-substring occurrence. -/
theorem claim_C4_failure_classification (timeout_seconds : Nat) (m : String) :
    check_website timeout_seconds RequestOutcome.timeout =
      ⟨false, "Timeout after " ++ toString timeout_seconds ++ "s", none⟩ ∧
    check_website timeout_seconds (RequestOutcome.requestException m) =
      ⟨false,
        if strContains m "ConnectionError" then "Connection failed"
        else if strContains m "SSLError" then "SSL error"
        else "Error: " ++ m.take 100, none⟩ ∧
    check_website timeout_seconds (RequestOutcome.otherException m) =
      ⟨false, "Unexpected error: " ++ m.take 100, none⟩ ∧
    (strContains m "ConnectionError" = true ↔
      ∃ pre post, m = pre ++ "ConnectionError" ++ post) ∧
    (strContains m "SSLError" = true ↔
      ∃ pre post, m = pre ++ "SSLError" ++ post) := by
  refine ⟨rfl, ?_, rfl, strContains_iff m _, strContains_iff m _⟩
  simp only [check_website, requestsGet, onRequestExc]
  cases strContains m "ConnectionError" <;>
    cases strContains m "SSLError" <;> simp

/-- Witness for C4 at a concrete transport failure whose text contains
"ConnectionError". -/
theorem claim_C4_witness :
    check_website 30 (RequestOutcome.requestException
      "HTTPSConnectionPool(host=a): Max retries (ConnectionError(refused))") =
      ⟨false, "Connection failed", none⟩ := by
  rw [(claim_C4_failure_classification 30
    "HTTPSConnectionPool(host=a): Max retries (ConnectionError(refused))").2.1]
  decide

/-- Claim C9: the Checker is total at its boundary: for every input,
`check_website` never raises (its try/except form returns `Except.ok` of the
ordinary triple), and every failure path yields a down classification. -/
theorem claim_C9_checker_total (timeout_seconds : Nat) (net : RequestOutcome) :
    check_websiteRun timeout_seconds net =
      Except.ok (check_website timeout_seconds net) ∧
    (isFailure net = true →
      (check_website timeout_seconds net).is_up = false) := by
  refine ⟨check_websiteRun_eq _ _, fun h => ?_⟩
  cases net with
  | response c => simp [isFailure] at h
  | timeout => rfl
  | requestException m =>
    simp only [check_website, requestsGet, onRequestExc]
    cases strContains m "ConnectionError" <;>
      cases strContains m "SSLError" <;> simp
  | otherException m => rfl

/-- Witness for C9 at a concrete timeout. -/
theorem claim_C9_witness :
    check_websiteRun 30 RequestOutcome.timeout =
      Except.ok (check_website 30 RequestOutcome.timeout) ∧
    (check_website 30 RequestOutcome.timeout).is_up = false :=
  ⟨(claim_C9_checker_total 30 RequestOutcome.timeout).1,
   (claim_C9_checker_total 30 RequestOutcome.timeout).2 (by decide)⟩

/-- Claim C8 counterexample: the claim says the sink "returns true on a
successful (2xx) response", but `send_telegram_message` tests
`status_code == 200` exactly, so the 2xx response 204 returns false. -/
theorem claim_C8_counterexample :
    200 ≤ 204 ∧ 204 < 300 ∧
      send_telegram_message (PostOutcome.response 204) = false := by
  decide

/-- Claim C8 (amended): the notification sink never raises; it returns true
exactly on a response with status code 200, and false on a network error or
any non-200 response; and it logs at error level exactly when it returns
false (and at info level otherwise). -/
theorem claim_C8_amended_sink (post : PostOutcome) :
    send_telegram_messageRun post = Except.ok (send_telegram_message post) ∧
    (send_telegram_message post = true ↔ post = PostOutcome.response 200) ∧
    (send_telegram_message post = false ↔
      send_telegram_log post = LogLevel.error) := by
  refine ⟨send_telegram_messageRun_eq post, ?_, ?_⟩ <;>
    cases post with
    | response c =>
      cases h : (c == 200) <;>
        simp_all [send_telegram_message, send_telegram_log]
    | exc m => simp [send_telegram_message, send_telegram_log]

/-- Witness for C8 (amended) at a concrete 200 response. -/
theorem claim_C8_witness :
    send_telegram_message (PostOutcome.response 200) = true :=
  (claim_C8_amended_sink (PostOutcome.response 200)).2.1.mpr rfl

/-- Claim C1: a target absent from the loaded previous map is treated as
previously up, so a target whose first-ever check is down gets exactly one
change record `{url, is_up = false, detail, status_code}` in the queue, and
the run submits exactly one message per queued record in queue order (hence
one change notification for that target). -/
theorem claim_C1_default_up_first_down (variantSummary : Bool)
    (timeout_seconds : Nat) (websites : List Url)
    (net : Url → RequestOutcome) (world : String → PostOutcome) (now : String)
    (file : Option StatusMap) (readOk writeOk : Bool) (url : Url)
    (hnodup : websites.Nodup) (hmem : url ∈ websites)
    (habsent : hasKey (load_state file readOk) url = false)
    (hdown : (check_website timeout_seconds (net url)).is_up = false) :
    (mainRun variantSummary timeout_seconds websites net world now file
        readOk writeOk).changed.filter (fun r => r.url == url) =
      [⟨url, false, (check_website timeout_seconds (net url)).detail,
        (check_website timeout_seconds (net url)).status_code⟩] ∧
    (mainRun variantSummary timeout_seconds websites net world now file
        readOk writeOk).changed.countP (fun r => r.url == url) = 1 ∧
    sentMessages (mainRun variantSummary timeout_seconds websites net world
        now file readOk writeOk).events =
      (mainRun variantSummary timeout_seconds websites net world now file
          readOk writeOk).changed.map (recordMessage now) ++
        (if variantSummary &&
            !(mainRun variantSummary timeout_seconds websites net world now
                file readOk writeOk).changed.isEmpty then
          [format_summary_message now
            (mainRun variantSummary timeout_seconds websites net world now
              file readOk writeOk).current]
         else []) := by
  have hwas : dictGet (load_state file readOk) url true = true :=
    dictGet_of_not_hasKey _ _ _ habsent
  have hcond : changeCond timeout_seconds net (load_state file readOk) url
      = true := by
    simp [changeCond, hwas, hdown]
  have hrec : changeRec timeout_seconds net url =
      ⟨url, false, (check_website timeout_seconds (net url)).detail,
        (check_website timeout_seconds (net url)).status_code⟩ := by
    simp [changeRec, hdown]
  have hfilter :
      (mainRun variantSummary timeout_seconds websites net world now file
          readOk writeOk).changed.filter (fun r => r.url == url) =
        [⟨url, false, (check_website timeout_seconds (net url)).detail,
          (check_website timeout_seconds (net url)).status_code⟩] := by
    rw [mainRun_changed,
      changesOf_filter_eq timeout_seconds net _ websites url hnodup hmem hcond,
      hrec]
  refine ⟨hfilter, ?_, mainRun_sent _ _ _ _ _ _ _ _ _⟩
  rw [List.countP_eq_length_filter, hfilter]
  rfl

/-- Witness for C1: one target, never previously seen, returns HTTP 500. -/
theorem claim_C1_witness :
    (mainRun false 30 ["https://a.test"]
        (fun _ => RequestOutcome.response 500)
        (fun _ => PostOutcome.response 200) "2026-01-01 00:00:00" none true
        true).changed.filter (fun r => r.url == "https://a.test") =
      [⟨"https://a.test", false,
        (check_website 30 (RequestOutcome.response 500)).detail,
        (check_website 30 (RequestOutcome.response 500)).status_code⟩] :=
  (claim_C1_default_up_first_down false 30 ["https://a.test"]
    (fun _ => RequestOutcome.response 500) (fun _ => PostOutcome.response 200)
    "2026-01-01 00:00:00" none true true "https://a.test"
    (by decide) (by decide) (by decide) (by decide)).1

/-- Claim C2: regardless of the success or failure of each individual send
(the `world` argument is arbitrary, including non-2xx sink responses), every
queued change record is still submitted (the submitted messages are exactly
the queued records' messages, in order, plus the summary in the variant that
sends one), the State Saver is still invoked with the full newly built map
(the trace ends with that save), and the run completes without raising (the
exception-explicit pipeline returns `Except.ok`). -/
theorem claim_C2_send_failure_isolated (variantSummary : Bool)
    (timeout_seconds : Nat) (websites : List Url)
    (net : Url → RequestOutcome) (world : String → PostOutcome) (now : String)
    (file : Option StatusMap) (readOk writeOk : Bool) :
    sentMessages (mainRun variantSummary timeout_seconds websites net world
        now file readOk writeOk).events =
      (mainRun variantSummary timeout_seconds websites net world now file
          readOk writeOk).changed.map (recordMessage now) ++
        (if variantSummary &&
            !(mainRun variantSummary timeout_seconds websites net world now
                file readOk writeOk).changed.isEmpty then
          [format_summary_message now
            (mainRun variantSummary timeout_seconds websites net world now
              file readOk writeOk).current]
         else []) ∧
    (mainRun variantSummary timeout_seconds websites net world now file
        readOk writeOk).events.getLast? =
      some (Event.saved
        (mainRun variantSummary timeout_seconds websites net world now file
          readOk writeOk).current) ∧
    mainRunE variantSummary timeout_seconds websites net world now file
        readOk writeOk =
      Except.ok (mainRun variantSummary timeout_seconds websites net world
        now file readOk writeOk) :=
  ⟨mainRun_sent _ _ _ _ _ _ _ _ _,
   mainRun_events_last _ _ _ _ _ _ _ _ _,
   mainRunE_eq _ _ _ _ _ _ _ _ _⟩

/-- Claim C5: the map written by the Saver and read back by the Loader
equals the map the Checker produced this run: its key set is exactly the
configured target list, and each target's value is its check's up/down bit. -/
theorem claim_C5_roundtrip (variantSummary : Bool) (timeout_seconds : Nat)
    (websites : List Url) (net : Url → RequestOutcome)
    (world : String → PostOutcome) (now : String) (file : Option StatusMap)
    (readOk : Bool) :
    load_state (mainRun variantSummary timeout_seconds websites net world now
        file readOk true).file true =
      (mainRun variantSummary timeout_seconds websites net world now file
        readOk true).current ∧
    (∀ w, hasKey (mainRun variantSummary timeout_seconds websites net world
        now file readOk true).current w = true ↔ w ∈ websites) ∧
    (∀ w ∈ websites,
      dictGet (mainRun variantSummary timeout_seconds websites net world now
          file readOk true).current w true =
        (check_website timeout_seconds (net w)).is_up) := by
  refine ⟨by rw [mainRun_file]; rfl, fun w => ?_, fun w hw => ?_⟩
  · rw [mainRun_current, runChecks_fst_hasKey]
    simp [hasKey]
  · rw [mainRun_current, runChecks_fst_get _ _ _ _ _ _ _ _ hw]

/-- Witness for C5: the spec's all-up scenario read back for one target. -/
theorem claim_C5_witness :
    dictGet (mainRun false 30 ["https://a.test"]
        (fun _ => RequestOutcome.response 200)
        (fun _ => PostOutcome.response 200) "T" none true true).current
      "https://a.test" true =
      (check_website 30 (RequestOutcome.response 200)).is_up :=
  (claim_C5_roundtrip false 30 ["https://a.test"]
    (fun _ => RequestOutcome.response 200) (fun _ => PostOutcome.response 200)
    "T" none true).2.2 "https://a.test" (by decide)

/-- Claim C6: if the pipeline is run twice in a row (the second run loading
the state the first saved) and every target's check outcome is the same
up/down bit in both runs, the second run enqueues zero change records and
submits zero messages. -/
theorem claim_C6_idempotent (variantSummary : Bool) (timeout_seconds : Nat)
    (websites : List Url) (net1 net2 : Url → RequestOutcome)
    (world1 world2 : String → PostOutcome) (now1 now2 : String)
    (file : Option StatusMap) (readOk writeOk2 : Bool)
    (hsame : ∀ w ∈ websites,
      (check_website timeout_seconds (net2 w)).is_up =
        (check_website timeout_seconds (net1 w)).is_up) :
    (mainRun variantSummary timeout_seconds websites net2 world2 now2
        (mainRun variantSummary timeout_seconds websites net1 world1 now1
          file readOk true).file true writeOk2).changed = [] ∧
    sentMessages (mainRun variantSummary timeout_seconds websites net2 world2
        now2 (mainRun variantSummary timeout_seconds websites net1 world1
          now1 file readOk true).file true writeOk2).events = [] := by
  set run1 := mainRun variantSummary timeout_seconds websites net1 world1
    now1 file readOk true with hrun1
  have hload : load_state run1.file true = run1.current := by
    rw [hrun1, mainRun_file]; rfl
  have hchanged : (mainRun variantSummary timeout_seconds websites net2
      world2 now2 run1.file true writeOk2).changed = [] := by
    rw [mainRun_changed, hload]
    apply changesOf_eq_nil
    intro w hw
    have hget : dictGet run1.current w true =
        (check_website timeout_seconds (net1 w)).is_up := by
      rw [hrun1, mainRun_current, runChecks_fst_get _ _ _ _ _ _ _ _ hw]
    simp [changeCond, hget, hsame w hw]
  refine ⟨hchanged, ?_⟩
  rw [mainRun_sent, hchanged]
  simp

/-- Witness for C6: one target up in both runs; second run is silent. -/
theorem claim_C6_witness :
    (mainRun false 30 ["https://a.test"]
        (fun _ => RequestOutcome.response 200)
        (fun _ => PostOutcome.response 200) "T2"
        (mainRun false 30 ["https://a.test"]
          (fun _ => RequestOutcome.response 200)
          (fun _ => PostOutcome.response 200) "T1" none true true).file
        true true).changed = [] ∧
    sentMessages (mainRun false 30 ["https://a.test"]
        (fun _ => RequestOutcome.response 200)
        (fun _ => PostOutcome.response 200) "T2"
        (mainRun false 30 ["https://a.test"]
          (fun _ => RequestOutcome.response 200)
          (fun _ => PostOutcome.response 200) "T1" none true true).file
        true true).events = [] :=
  claim_C6_idempotent false 30 ["https://a.test"]
    (fun _ => RequestOutcome.response 200)
    (fun _ => RequestOutcome.response 200)
    (fun _ => PostOutcome.response 200) (fun _ => PostOutcome.response 200)
    "T1" "T2" none true true (by decide)

/-- Claim C7: after a run's save, the persisted map is exactly the freshly
built map (a full overwrite, never a merge with the old file), and its key
set is exactly the configured target list — so entries for removed targets
are dropped. -/
theorem claim_C7_saved_keys (variantSummary : Bool) (timeout_seconds : Nat)
    (websites : List Url) (net : Url → RequestOutcome)
    (world : String → PostOutcome) (now : String) (file : Option StatusMap)
    (readOk : Bool) (w : Url) :
    (mainRun variantSummary timeout_seconds websites net world now file
        readOk true).file =
      some (mainRun variantSummary timeout_seconds websites net world now
        file readOk true).current ∧
    (hasKey (mainRun variantSummary timeout_seconds websites net world now
        file readOk true).current w = true ↔ w ∈ websites) := by
  refine ⟨by rw [mainRun_file]; rfl, ?_⟩
  rw [mainRun_current, runChecks_fst_hasKey]
  simp [hasKey]

/-- Witness for C7: a stale entry for a removed target is not merged into
the saved file. -/
theorem claim_C7_witness :
    (mainRun false 30 ["https://a.test"]
        (fun _ => RequestOutcome.response 200)
        (fun _ => PostOutcome.response 200) "T"
        (some [("https://removed.test", false)]) true true).file =
      some (mainRun false 30 ["https://a.test"]
        (fun _ => RequestOutcome.response 200)
        (fun _ => PostOutcome.response 200) "T"
        (some [("https://removed.test", false)]) true true).current :=
  (claim_C7_saved_keys false 30 ["https://a.test"]
    (fun _ => RequestOutcome.response 200) (fun _ => PostOutcome.response 200)
    "T" (some [("https://removed.test", false)]) true "https://a.test").1

/-- Claim C10: noninterference of the previous state on the saved result:
two runs over the same target list whose checks observe the same up/down bit
per target build the same `current_state` — and, when both writes succeed,
leave the same state file — whatever previous maps were loaded (and whatever
the sink, clock, or variant did). -/
theorem claim_C10_prev_noninterference (variantSummary1 variantSummary2 : Bool)
    (timeout_seconds : Nat) (websites : List Url)
    (net1 net2 : Url → RequestOutcome) (world1 world2 : String → PostOutcome)
    (now1 now2 : String) (file1 file2 : Option StatusMap)
    (readOk1 readOk2 writeOk1 writeOk2 : Bool)
    (hsame : ∀ w ∈ websites,
      (check_website timeout_seconds (net1 w)).is_up =
        (check_website timeout_seconds (net2 w)).is_up) :
    (mainRun variantSummary1 timeout_seconds websites net1 world1 now1 file1
        readOk1 writeOk1).current =
      (mainRun variantSummary2 timeout_seconds websites net2 world2 now2
        file2 readOk2 writeOk2).current ∧
    (mainRun variantSummary1 timeout_seconds websites net1 world1 now1 file1
        readOk1 true).file =
      (mainRun variantSummary2 timeout_seconds websites net2 world2 now2
        file2 readOk2 true).file := by
  have hcur : (mainRun variantSummary1 timeout_seconds websites net1 world1
      now1 file1 readOk1 true).current =
        (mainRun variantSummary2 timeout_seconds websites net2 world2 now2
          file2 readOk2 true).current := by
    rw [mainRun_current, mainRun_current]
    exact runChecks_fst_congr _ _ _ _ _ _ _ _ _ _ hsame
  refine ⟨?_, ?_⟩
  · rw [mainRun_current, mainRun_current]
    exact runChecks_fst_congr _ _ _ _ _ _ _ _ _ _ hsame
  · rw [mainRun_file, mainRun_file, hcur]
    simp [save_state]

/-- Witness for C10: two different previous files, same outcomes, same
saved file. -/
theorem claim_C10_witness :
    (mainRun false 30 ["https://a.test"]
        (fun _ => RequestOutcome.response 200)
        (fun _ => PostOutcome.response 200) "T1" none true true).current =
      (mainRun true 30 ["https://a.test"]
        (fun _ => RequestOutcome.response 200)
        (fun _ => PostOutcome.response 404) "T2"
        (some [("https://a.test", false)]) true true).current :=
  (claim_C10_prev_noninterference false true 30 ["https://a.test"]
    (fun _ => RequestOutcome.response 200)
    (fun _ => RequestOutcome.response 200)
    (fun _ => PostOutcome.response 200) (fun _ => PostOutcome.response 404)
    "T1" "T2" none (some [("https://a.test", false)]) true true true true
    (by decide)).1

end WebsiteMonitor
